import Mathlib

/-!
Verification development for the MEVP dna-barcode-toolkit backend.

The definitions below are a shallow embedding of the pipeline
orchestration core of the repository:

* `DockerService` (src/unnamed/part_000): image checks, `pullImageIfNeeded`,
  and the settlement logic of `runContainer`;
* `PythonExecutor` (src/backend/src/services/pythonExecutor.js): the fixed
  stage table `standardPipeline`, `clearOutputDirectories`, the stage
  driving loop of `executePipeline`, and `_parsePipelineResults`;
* the analysis router (src/backend/src/routes/analysis.js): the single
  mutable analysis slot and the start / stop / clear / SSE endpoints,
  modelled as a step function on an explicit server state driven by a
  trace of request and promise-settlement events.

Wall-clock data (`startTime`, `endTime`, the various `setTimeout` delays)
and the byte payloads written to SSE sockets are not modelled; everything
the theorems talk about is the state and the responses of the handlers.
-/

namespace MEVP

/-! ## DockerService (src/unnamed/part_000) -/

/-- Settlement of the promise returned by `DockerService.runContainer`:
either it resolves with a success record, or it rejects with an error
message.  (`resolved` carries the `success`, `output` and `exitCode`
fields of the object the JS code passes to `resolve`.) -/
inductive RunOutcome where
  | resolved (success : Bool) (output : String) (exitCode : Option Int)
  | rejected (msg : String)
  deriving Repr, DecidableEq

/-- JS template-string rendering of the `close` event's exit code
(`null` when the process was ended by a signal). -/
def exitCodeStr : Option Int → String
  | none => "null"
  | some c => toString c

/-- How the child process ends: the `error` event (spawn failure) or the
`close` event with an exit code and signal. -/
inductive ProcEnd where
  | spawnError (msg : String)
  | closed (code : Option Int) (signal : Option String)
  deriving Repr, DecidableEq

/-- Settlement logic of `runContainer` (part_000 lines 133-157): on
`close` with code 0 the promise resolves; on `close` with any other code
it rejects with the message built from the code and the accumulated
stderr; on the `error` event it rejects with the spawn-failure message. -/
def runContainerSettle (stdoutAcc stderrAcc : String) : ProcEnd → RunOutcome
  | .spawnError msg =>
      .rejected ("Failed to start Docker container: " ++ msg)
  | .closed code _signal =>
      if code = some 0 then
        .resolved true stdoutAcc code
      else
        .rejected ("Docker container exited with code " ++ exitCodeStr code
          ++ ": " ++ stderrAcc)

/-- `RunOutcome.rejected` discriminator. -/
def RunOutcome.isRejected : RunOutcome → Bool
  | .rejected _ => true
  | .resolved .. => false

/-- State of the Docker host as seen by `DockerService`: the set of
locally available images, the number of `docker pull` invocations issued
so far, and whether a `docker pull` issued now would succeed. -/
structure DockerWorld where
  images : List String
  pullAttempts : Nat
  pullSucceeds : Bool
  deriving Repr, DecidableEq

/-- `DockerService.checkImageExists` (part_000 lines 39-51): the
`docker images <name>` listing contains the image iff it is locally
present. -/
def checkImageExists (w : DockerWorld) (imageName : String) : Bool :=
  w.images.contains imageName

/-- `DockerService.pullImageIfNeeded` (part_000 lines 54-70): returns the
boolean result together with the Docker host state afterwards.  If the
image already exists it returns `true` without pulling; otherwise it
issues one `docker pull`, returning `true` and adding the image on
success and returning `false` on failure. -/
def pullImageIfNeeded (w : DockerWorld) (imageName : String) :
    Bool × DockerWorld :=
  if checkImageExists w imageName then
    (true, w)
  else if w.pullSucceeds then
    (true, { w with images := imageName :: w.images,
                    pullAttempts := w.pullAttempts + 1 })
  else
    (false, { w with pullAttempts := w.pullAttempts + 1 })

/-! ## PythonExecutor: stage table and driving loop
(src/backend/src/services/pythonExecutor.js) -/

/-- One entry of `this.standardPipeline` (pythonExecutor.js lines 19-86).
The empty `description` fields of the source are dropped. -/
structure PipelineStep where
  name : String
  script : String
  requiredFiles : List String
  deriving Repr, DecidableEq

/-- The fixed 11-stage table `standardPipeline` (pythonExecutor.js lines
19-86), verbatim. -/
def standardPipeline : List PipelineStep :=
  [ ⟨"trim and rename", "Step1/rename_trim.py",
      ["R1", "R2", "barcode", "qualityConfig"]⟩,
    ⟨"pear", "Step2/joinPear.py", []⟩,
    ⟨"length filter", "Step2/lenFilter.py", ["minLength"]⟩,
    ⟨"blast", "Step3/joinBlast.py", ["ncbiReference"]⟩,
    ⟨"assign species", "Step3/assign_species.py", ["keyword", "identity"]⟩,
    ⟨"species classifier", "Step3/speciesClassifier.py", []⟩,
    ⟨"MAFFT", "Step4/joinMAFFT.py", []⟩,
    ⟨"tab formatter", "Step4/tabFormatter.py", []⟩,
    ⟨"trim gaps", "Step4/trim_gaps.py", []⟩,
    ⟨"separate reads", "Step5/separate_reads.py", ["copyNumber"]⟩,
    ⟨"generate location-haplotype table", "Step6/get_loc_hap_table.py",
      ["barcode"]⟩ ]

/-- The value `_executeStep` returns for a step whose container resolved
(pythonExecutor.js lines 410-414); `status` is always the literal string
`"completed"` — there is no failed variant in the source. -/
structure StepResult where
  stepName : String
  script : String
  status : String
  deriving Repr, DecidableEq

/-- The `StepResult` recorded for a successfully finished step. -/
def completedStepResult (st : PipelineStep) : StepResult :=
  ⟨st.name, st.script, "completed"⟩

/-- Observables of the stage driving loop of `executePipeline`
(pythonExecutor.js lines 241-278): `recorded` is the `stepResults`
collection in loop order, `invoked` the names of stages whose container
was actually started, and `errorMsg` the message of the rejection that
aborted the loop (`none` when all stages finished). -/
structure StageLoopResult where
  recorded : List StepResult
  invoked : List String
  errorMsg : Option String
  deriving Repr, DecidableEq

/-- The stage driving loop (pythonExecutor.js lines 241-278), indexed by
the position `i` of the current step.  `behavior j` is the settlement of
the `runContainer` promise of stage `j` (an oracle for the external
container runtime).  A stage is recorded in `stepResults` only *after*
its awaited `_executeStep` returned; a rejection makes the `await` throw,
so the failing stage is never recorded and no later stage runs. -/
def runStages (behavior : Nat → RunOutcome) :
    List PipelineStep → Nat → StageLoopResult
  | [], _ => ⟨[], [], none⟩
  | st :: rest, i =>
    match behavior i with
    | .resolved .. =>
        let r := runStages behavior rest (i + 1)
        ⟨completedStepResult st :: r.recorded, st.name :: r.invoked,
          r.errorMsg⟩
    | .rejected msg => ⟨[], [st.name], some msg⟩

/-! ## PythonExecutor: output directories -/

/-- Contents of the `outputs` area: for each directory name, `none` when
the directory does not exist and `some files` (the `readdir` listing)
when it does.  `fileSize` gives the `fs.stat(...).size` of a file inside
a directory. -/
structure FileSys where
  dirs : String → Option (List String)
  fileSize : String → String → Nat

/-- The thirteen directory names removed and recreated by
`clearOutputDirectories` (pythonExecutor.js lines 113-163). -/
def outputDirNames : List String :=
  ["rename", "trim", "pear", "filter", "filter_del", "blast", "assign",
   "classifier", "mafft", "tab_formatter", "trimmed", "separated", "table"]

/-- `PythonExecutor.clearOutputDirectories` (pythonExecutor.js lines
113-163): each of the thirteen directories is `fs.remove`d and then
`fs.ensureDir`ed, leaving it existing and empty; no other path is
touched. -/
def clearOutputDirectories (fs : FileSys) : FileSys :=
  { fs with dirs := fun d =>
      if outputDirNames.contains d then some [] else fs.dirs d }

/-! ## PythonExecutor: executePipeline -/

/-- Ordered side effects of one `executePipeline` call: the environment
check, the clearing of the output directories, the write of the
temporary quality-config file, and one container spawn per stage
actually started. -/
inductive ExecEvent where
  | envCheck (ok : Bool)
  | clearDirs
  | writeQualityConfig
  | spawnStage (idx : Nat) (name : String)
  deriving Repr, DecidableEq

/-- `ExecEvent.spawnStage` discriminator. -/
def ExecEvent.isSpawn : ExecEvent → Bool
  | .spawnStage .. => true
  | _ => false

/-- Spawn events of the stage driving loop: stage `i` is spawned iff all
earlier stages resolved. -/
def stageSpawnEvents (behavior : Nat → RunOutcome) :
    List PipelineStep → Nat → List ExecEvent
  | [], _ => []
  | st :: rest, i =>
    match behavior i with
    | .resolved .. =>
        .spawnStage i st.name :: stageSpawnEvents behavior rest (i + 1)
    | .rejected _ => [.spawnStage i st.name]

/-- Observables of one `executePipeline` call (pythonExecutor.js lines
190-320). -/
structure PipelineRun where
  events : List ExecEvent
  fsBeforeStages : Option FileSys
  loop : StageLoopResult
  outcome : Option String

/-- `PythonExecutor.executePipeline` (pythonExecutor.js lines 190-320),
as a function of the initial `outputs` filesystem and of the environment:
`envOk` is whether `checkEnvironment` succeeds, `behavior` the settlement
of each stage's container.  When the environment check throws, nothing
else runs and the promise rejects; otherwise the output directories are
cleared and the temporary quality-config file written before the stage
loop starts.  `fsBeforeStages` is the `outputs` filesystem at entry of
the stage loop; `outcome` is `some msg` when the returned promise
rejects with `msg` and `none` when it resolves. -/
def executePipelineModel (fs : FileSys) (envOk : Bool)
    (envMsg : String) (behavior : Nat → RunOutcome) : PipelineRun :=
  if envOk then
    let r := runStages behavior standardPipeline 0
    { events := [.envCheck true, .clearDirs, .writeQualityConfig]
        ++ stageSpawnEvents behavior standardPipeline 0,
      fsBeforeStages := some (clearOutputDirectories fs),
      loop := r,
      outcome := r.errorMsg }
  else
    { events := [.envCheck false],
      fsBeforeStages := none,
      loop := ⟨[], [], none⟩,
      outcome := some ("Docker environment check failed: " ++ envMsg) }

/-! ## PythonExecutor: result collation (`_parsePipelineResults`,
pythonExecutor.js lines 421-513) -/

/-- ASCII word character, the `\w` class of the trim-file pattern. -/
def isWordChar (c : Char) : Bool :=
  c.isAlpha || c.isDigit || c = '_'

/-- The filename pattern `/^(\w+)\.(f|r)\.fq$/` (pythonExecutor.js line
462): returns the captured `(species, direction)` on a match.  Since
`\w` excludes the dot, a filename matches exactly when it splits on dots
into a nonempty word, a direction `f` or `r`, and the literal `fq`. -/
def matchTrimPattern (file : String) : Option (String × String) :=
  match file.splitOn "." with
  | [sp, d, "fq"] =>
      if sp ≠ "" && sp.toList.all isWordChar && (d = "f" || d = "r") then
        some (sp, d)
      else
        none
  | _ => none

/-- One value of `results.trim.species[species][direction]`
(pythonExecutor.js lines 470-474).  The source also stores the absolute
host path (`path.join(trimDir, file)`); being installation-specific it is
not modelled. -/
structure TrimEntry where
  filename : String
  size : Nat
  deriving Repr, DecidableEq

/-- JS object property assignment on a string-keyed object modelled as an
insertion-ordered association list: overwrite in place when the key is
present, append otherwise. -/
def objSet {α : Type} (m : List (String × α)) (k : String) (v : α) :
    List (String × α) :=
  if m.any (fun p => p.1 == k) then
    m.map (fun p => if p.1 == k then (k, v) else p)
  else
    m ++ [(k, v)]

/-- JS object property read, defaulting to a fresh empty object. -/
def objGetD {α : Type} (m : List (String × α)) (k : String) (d : α) : α :=
  ((m.find? (fun p => p.1 == k)).map Prod.snd).getD d

/-- The per-species grouping map `results.trim.species`. -/
abbrev SpeciesMap : Type := List (String × List (String × TrimEntry))

/-- The body of the `for (const file of trimFiles)` loop (pythonExecutor.js
lines 461-476): a matching file is entered under its species and
direction; a non-matching file is skipped. -/
def addTrimFile (sizeOf : String → Nat) (m : SpeciesMap) (file : String) :
    SpeciesMap :=
  match matchTrimPattern file with
  | some (sp, d) =>
      objSet m sp (objSet (objGetD m sp []) d ⟨file, sizeOf file⟩)
  | none => m

/-- The structured summary `_parsePipelineResults` returns
(pythonExecutor.js lines 423-443): one field per property of the JS
`results` object. -/
structure CollatedResult where
  renameFiles : List String
  renameTotalFiles : Nat
  trimSpecies : SpeciesMap
  trimTotalFiles : Nat
  trimFiles : List String
  pearFiles : List String
  pearTotalFiles : Nat
  filterFiles : List String
  filterTotalFiles : Nat
  filterDeletedFiles : List String
  filterDeletedCount : Nat
  deriving Repr, DecidableEq

/-- The initial `results` object (pythonExecutor.js lines 423-443):
every category empty. -/
def emptyCollatedResult : CollatedResult :=
  ⟨[], 0, [], 0, [], [], 0, [], 0, [], 0⟩

/-- `PythonExecutor._parsePipelineResults` (pythonExecutor.js lines
421-513).  Each category directory is read only behind an
`fs.pathExists` guard, so an absent directory leaves that category at
its empty initial value instead of raising. -/
def parsePipelineResults (fs : FileSys) : CollatedResult :=
  let r0 := emptyCollatedResult
  let r1 :=
    match fs.dirs "rename" with
    | some files =>
        { r0 with renameFiles := files, renameTotalFiles := files.length }
    | none => r0
  let r2 :=
    match fs.dirs "trim" with
    | some files =>
        { r1 with
            trimFiles := files,
            trimTotalFiles := files.length,
            trimSpecies :=
              files.foldl (addTrimFile (fs.fileSize "trim")) [] }
    | none => r1
  let r3 :=
    match fs.dirs "pear" with
    | some files =>
        { r2 with pearFiles := files, pearTotalFiles := files.length }
    | none => r2
  let r4 :=
    match fs.dirs "filter" with
    | some files =>
        { r3 with filterFiles := files, filterTotalFiles := files.length }
    | none => r3
  match fs.dirs "filter_del" with
  | some files =>
      { r4 with filterDeletedFiles := files,
                filterDeletedCount := files.length }
  | none => r4

/-! ## Analysis router (src/backend/src/routes/analysis.js)

The router owns two module-level mutable variables, `currentAnalysis`
(the single analysis slot) and `currentPythonProcess` (the process
handle `stop` signals).  Its handlers, together with the `.then`/`.catch`
settlement handlers attached to each started pipeline promise, mutate
them; we model the whole thing as a step function on a `ServerState`
driven by a trace of events. -/

/-- The request body of `POST /pipeline/start`, restricted to the keys
`executePipeline` reads.  A field is `none` when the key is absent from
the body. -/
structure PipelineParams where
  r1File : Option String
  r2File : Option String
  barcodeFile : Option String
  qualityConfig : Option String
  minLength : Option Int
  ncbiReferenceFile : Option String
  keyword : Option String
  identity : Option Int
  copyNumber : Option Int
  deriving Repr, DecidableEq

/-- `Joi.string().required()`: present and a nonempty string (Joi
forbids the empty string by default). -/
def joiStringRequired : Option String → Bool
  | some s => s ≠ ""
  | none => false

/-- The schema `pipelineSchema` (analysis.js lines 14-18) applied by
`pipelineSchema.validate(req.body)`: the three file fields are required
nonempty strings, and — Joi's default — any unknown key in the body is
rejected. -/
def pipelineSchemaValidate (p : PipelineParams) : Bool :=
  joiStringRequired p.r1File && joiStringRequired p.r2File
    && joiStringRequired p.barcodeFile
    && p.qualityConfig = none && p.minLength = none
    && p.ncbiReferenceFile = none && p.keyword = none
    && p.identity = none && p.copyNumber = none

/-- The `status` strings stored in `currentAnalysis.status`:
`"running"`, `"completed"`, `"error"` and `"stopped"`.  (`"error"` is
what the spec calls `Failed`.) -/
inductive Status where
  | running
  | completed
  | error
  | stopped
  deriving Repr, DecidableEq

/-- The `currentAnalysis` object (analysis.js lines 64-69): its status,
whether a `result` has been stored, its `error` message, and the size of
its `sseConnections` set.  `startTime`/`endTime` and the `promise` field
itself are not modelled (the promise's identity is tracked through
`ServerState.pending`). -/
structure Analysis where
  status : Status
  hasResult : Bool
  errorMsg : Option String
  sseCount : Nat
  deriving Repr, DecidableEq

/-- The mutable module state of the router plus instrumentation.
`currentPythonProcess` is an optional opaque process id.  `pending`
lists the ids of started pipeline promises that have not settled yet
(each settles at most once).  `executorCalls` counts calls to
`pythonExecutor.executePipeline`, `signalsSent` the kill signals `stop`
delivered to a process handle, and `connectionsClosed` the SSE
connections ended by `closeSSEConnections`. -/
structure ServerState where
  currentAnalysis : Option Analysis
  currentPythonProcess : Option Nat
  pending : List Nat
  nextRun : Nat
  executorCalls : Nat
  signalsSent : Nat
  connectionsClosed : Nat
  deriving Repr, DecidableEq

/-- Module load state: no analysis, no process handle. -/
def initialServer : ServerState :=
  ⟨none, none, [], 0, 0, 0, 0⟩

/-- Responses the modelled handlers produce.  `conflict` is the 409 of
`start` while running, `validationFailed` its 400, `started` its success
body; `stopRejected`/`stopped` are the two outcomes of `stop`;
`cleared` is the (unconditional) success of `DELETE /clear`;
`streamOpened`/`noAnalysis` the outcomes of the SSE subscription;
`internal` marks events that are not HTTP requests. -/
inductive Response where
  | conflict
  | validationFailed
  | started
  | stopRejected
  | stopped
  | cleared
  | streamOpened
  | noAnalysis
  | internal
  deriving Repr, DecidableEq

/-- Events driving the router: the four modelled endpoints, plus the
asynchronous callbacks of a started pipeline — `stepExit run` is the
`onExit` of one of its containers (which invokes the route's
`processCallback` with `null`, pythonExecutor.js lines 403-407), and
`settleResolve`/`settleReject` are the settlement of its
`executePipeline` promise, running the `.then`/`.catch` handlers of
analysis.js lines 72-110. -/
inductive Event where
  | startReq (p : PipelineParams)
  | stopReq
  | clearReq
  | subscribeReq
  | stepExit (run : Nat)
  | settleResolve (run : Nat)
  | settleReject (run : Nat) (msg : String)
  deriving Repr, DecidableEq

/-- Is the current analysis in status `running`?  (The guard of
analysis.js line 24 and, negated, of line 123.) -/
def ServerState.isRunning (s : ServerState) : Bool :=
  match s.currentAnalysis with
  | some a => a.status = Status.running
  | none => false

/-- Status of the current analysis, if any. -/
def ServerState.statusNow (s : ServerState) : Option Status :=
  s.currentAnalysis.map Analysis.status

/-- One step of the router.  Each branch mirrors the corresponding
handler of analysis.js:

* `startReq` (lines 21-119): 409 while running; 400 when the Joi schema
  rejects the body; otherwise `executePipeline` is called (one more
  executor call, one more pending promise) and the slot is overwritten
  with a fresh running analysis with an empty `sseConnections` set.
* `stopReq` (lines 121-172): 400 unless running; otherwise a `SIGTERM`
  is sent if `currentPythonProcess` is non-null, and the status becomes
  `stopped` with the user-stop message.
* `clearReq` (lines 380-390): if a slot exists, `closeSSEConnections()`
  ends its SSE connections and the slot is set to `null`; the response
  is a success either way.  No signal is sent and no pending promise is
  affected.
* `subscribeReq` (lines 175-254): 404 without a slot; otherwise the
  connection joins the slot's `sseConnections` set.
* `stepExit` (pythonExecutor.js lines 403-407): the route's
  `processCallback` is invoked with `null`, clearing
  `currentPythonProcess`.  Note the source never invokes it with a live
  process: `runContainer` returns `dockerProcess` from inside the
  `new Promise` executor, where the value is discarded (part_000 line
  160), so no assignment to `currentPythonProcess` in the repository
  ever stores anything but `null`.
* `settleResolve`/`settleReject` (analysis.js lines 72-110): enabled
  only while the promise is pending; `currentPythonProcess` is nulled,
  and — guarded only by `if (currentAnalysis)`, with no check that the
  slot still belongs to this run or is still running — the slot's status
  is set to `completed` (storing the result) or `error` (storing the
  message). -/
def step (s : ServerState) : Event → Response × ServerState
  | .startReq p =>
    if s.isRunning then
      (.conflict, s)
    else if ¬ pipelineSchemaValidate p then
      (.validationFailed, s)
    else
      (.started,
        { s with
            currentAnalysis := some ⟨.running, false, none, 0⟩,
            pending := s.nextRun :: s.pending,
            nextRun := s.nextRun + 1,
            executorCalls := s.executorCalls + 1 })
  | .stopReq =>
    match s.currentAnalysis with
    | some a =>
      if a.status = .running then
        let s1 :=
          if s.currentPythonProcess.isSome then
            { s with signalsSent := s.signalsSent + 1 }
          else s
        (.stopped,
          { s1 with
              currentAnalysis :=
                some { a with
                        status := Status.stopped,
                        errorMsg := some "Analysis stopped by user" } })
      else
        (.stopRejected, s)
    | none => (.stopRejected, s)
  | .clearReq =>
    match s.currentAnalysis with
    | some a =>
      (.cleared,
        { s with
            currentAnalysis := none,
            connectionsClosed := s.connectionsClosed + a.sseCount })
    | none => (.cleared, s)
  | .subscribeReq =>
    match s.currentAnalysis with
    | some a =>
      (.streamOpened,
        { s with currentAnalysis := some ({ a with sseCount := a.sseCount + 1 }) })
    | none => (.noAnalysis, s)
  | .stepExit run =>
    if s.pending.contains run then
      (.internal, { s with currentPythonProcess := none })
    else
      (.internal, s)
  | .settleResolve run =>
    if s.pending.contains run then
      let s1 := { s with currentPythonProcess := none,
                         pending := s.pending.erase run }
      match s1.currentAnalysis with
      | some a =>
        (.internal,
          { s1 with currentAnalysis := some { a with
              status := Status.completed, hasResult := true } })
      | none => (.internal, s1)
    else
      (.internal, s)
  | .settleReject run msg =>
    if s.pending.contains run then
      let s1 := { s with currentPythonProcess := none,
                         pending := s.pending.erase run }
      match s1.currentAnalysis with
      | some a =>
        (.internal,
          { s1 with currentAnalysis := some { a with
              status := Status.error, errorMsg := some msg } })
      | none => (.internal, s1)
    else
      (.internal, s)

/-- Run a trace of events from the module load state. -/
def execTrace (tr : List Event) : ServerState :=
  tr.foldl (fun s e => (step s e).2) initialServer

/-- A valid start body: the three required files, nothing else. -/
def goodParams : PipelineParams :=
  ⟨some "r1.fastq", some "r2.fastq", some "barcode.txt",
    none, none, none, none, none, none⟩

/-- Number of analyses currently in status `running` (the single slot
holds at most one analysis at a time). -/
def runningCount (s : ServerState) : Nat :=
  match s.currentAnalysis with
  | some a => if a.status = Status.running then 1 else 0
  | none => 0

/-- A start body missing `r1File` (and everything else but the other two
required files). -/
def missingR1Params : PipelineParams :=
  ⟨none, some "r2.fastq", some "barcode.txt",
    none, none, none, none, none, none⟩

/-- A filesystem on which none of the expected output directories
exists. -/
def emptyFs : FileSys :=
  ⟨fun _ => none, fun _ _ => 0⟩

/-! ## Theorems -/

/-- Claim C1: a start request arriving while the current analysis status
is `running` is answered with the 409 conflict response and leaves the
whole server state (in particular the running analysis) unchanged; and
at every moment at most one analysis is in status `running`. -/
theorem start_single_flight :
    (∀ (s : ServerState) (p : PipelineParams), s.isRunning = true →
      step s (Event.startReq p) = (Response.conflict, s)) ∧
    (∀ s : ServerState, runningCount s ≤ 1) := by
  constructor
  · intro s p h
    simp [step, h]
  · intro s
    unfold runningCount
    cases s.currentAnalysis with
    | none => exact Nat.zero_le 1
    | some a =>
      by_cases h : a.status = Status.running <;> simp [h]

/-- Witness for C1: after one accepted start the status is `running`,
and a second start request returns the conflict response with the state
untouched. -/
theorem start_single_flight_witness :
    step (execTrace [Event.startReq goodParams]) (Event.startReq goodParams)
      = (Response.conflict, execTrace [Event.startReq goodParams]) :=
  start_single_flight.1 (execTrace [Event.startReq goodParams]) goodParams
    (by decide)

/-- Counterexample to C5: a container process that spawns and then exits
with code 1 makes `runContainer` reject its promise (with the message
built from the code and the collected stderr) — it does not resolve with
a non-zero-exit outcome. -/
theorem runner_nonzero_exit_counterexample :
    runContainerSettle "" "boom" (ProcEnd.closed (some 1) none)
      = RunOutcome.rejected "Docker container exited with code 1: boom" ∧
    (runContainerSettle "" "boom" (ProcEnd.closed (some 1) none)).isRejected
      = true := by
  decide

/-- Amended C5: `runContainer` resolves only when the process exits with
code 0; every non-zero (or null) exit code and every spawn failure
rejects the promise, the two rejection kinds distinguished only by their
message. -/
theorem runner_settlement_amended :
    ∀ (out err : String) (code : Option Int) (sig : Option String)
      (msg : String),
      (code ≠ some 0 →
        runContainerSettle out err (ProcEnd.closed code sig)
          = RunOutcome.rejected ("Docker container exited with code "
              ++ exitCodeStr code ++ ": " ++ err)) ∧
      runContainerSettle out err (ProcEnd.closed (some 0) sig)
        = RunOutcome.resolved true out (some 0) ∧
      runContainerSettle out err (ProcEnd.spawnError msg)
        = RunOutcome.rejected ("Failed to start Docker container: " ++ msg) := by
  intro out err code sig msg
  refine ⟨fun h => ?_, by simp [runContainerSettle], by simp [runContainerSettle]⟩
  simp [runContainerSettle, h]

/-- Witness for amended C5: exit code 2 with stderr `"x"` rejects with
the expected message. -/
theorem runner_settlement_amended_witness :
    runContainerSettle "" "x" (ProcEnd.closed (some 2) none)
      = RunOutcome.rejected "Docker container exited with code 2: x" :=
  (runner_settlement_amended "" "x" (some 2) none "").1 (by decide)

/-- Claim C7: collation on a filesystem where any or all of the expected
output directories are absent returns the structurally valid
`CollatedResult` in which exactly those categories are empty (empty file
lists, zero counts, empty species grouping); with no directory present
it returns the all-empty result.  (`_parsePipelineResults` guards every
directory read with `fs.pathExists`, so a missing directory is never an
error.) -/
theorem collation_tolerates_missing_dirs :
    parsePipelineResults emptyFs = emptyCollatedResult ∧
    (∀ fs : FileSys,
      (fs.dirs "rename" = none →
        (parsePipelineResults fs).renameFiles = [] ∧
        (parsePipelineResults fs).renameTotalFiles = 0) ∧
      (fs.dirs "trim" = none →
        (parsePipelineResults fs).trimFiles = [] ∧
        (parsePipelineResults fs).trimTotalFiles = 0 ∧
        (parsePipelineResults fs).trimSpecies = []) ∧
      (fs.dirs "pear" = none →
        (parsePipelineResults fs).pearFiles = [] ∧
        (parsePipelineResults fs).pearTotalFiles = 0) ∧
      (fs.dirs "filter" = none →
        (parsePipelineResults fs).filterFiles = [] ∧
        (parsePipelineResults fs).filterTotalFiles = 0) ∧
      (fs.dirs "filter_del" = none →
        (parsePipelineResults fs).filterDeletedFiles = [] ∧
        (parsePipelineResults fs).filterDeletedCount = 0)) := by
  constructor
  · rfl
  · intro fs
    unfold parsePipelineResults
    cases h1 : fs.dirs "rename" <;> cases h2 : fs.dirs "trim" <;>
      cases h3 : fs.dirs "pear" <;> cases h4 : fs.dirs "filter" <;>
      cases h5 : fs.dirs "filter_del" <;>
      simp_all [emptyCollatedResult]

/-- Witness for C7: on the filesystem with no directories at all, each
category is empty. -/
theorem collation_tolerates_missing_dirs_witness :
    (parsePipelineResults emptyFs).renameFiles = [] ∧
    (parsePipelineResults emptyFs).trimSpecies = [] ∧
    (parsePipelineResults emptyFs).filterDeletedCount = 0 :=
  ⟨((collation_tolerates_missing_dirs.2 emptyFs).1 rfl).1,
   ((collation_tolerates_missing_dirs.2 emptyFs).2.1 rfl).2.2,
   ((collation_tolerates_missing_dirs.2 emptyFs).2.2.2.2 rfl).2⟩

/-- Claim C8: `pullImageIfNeeded` pulls only when the image is not
already present; when it is present the call is a no-op returning
`true` (and a second call in that state returns the same), while an
absent image costs exactly one `docker pull` invocation. -/
theorem pull_image_idempotent :
    ∀ (w : DockerWorld) (name : String),
      (checkImageExists w name = true →
        pullImageIfNeeded w name = (true, w) ∧
        pullImageIfNeeded (pullImageIfNeeded w name).2 name = (true, w) ∧
        (pullImageIfNeeded w name).2.pullAttempts = w.pullAttempts) ∧
      (checkImageExists w name = false →
        (pullImageIfNeeded w name).2.pullAttempts = w.pullAttempts + 1) := by
  intro w name
  constructor
  · intro h
    simp [pullImageIfNeeded, h]
  · intro h
    cases hp : w.pullSucceeds <;> simp [pullImageIfNeeded, h, hp]

/-- Witness for C8: with the `mevp:latest` image already present, the
call returns `true` and changes nothing, twice over. -/
theorem pull_image_idempotent_witness :
    pullImageIfNeeded ⟨["mevp:latest"], 0, true⟩ "mevp:latest"
      = (true, ⟨["mevp:latest"], 0, true⟩) ∧
    pullImageIfNeeded
        (pullImageIfNeeded ⟨["mevp:latest"], 0, true⟩ "mevp:latest").2
        "mevp:latest"
      = (true, ⟨["mevp:latest"], 0, true⟩) :=
  ⟨(pull_image_idempotent ⟨["mevp:latest"], 0, true⟩ "mevp:latest").1
      (by decide) |>.1,
   (pull_image_idempotent ⟨["mevp:latest"], 0, true⟩ "mevp:latest").1
      (by decide) |>.2.1⟩

/-- Counterexample to C2: start a run, stop it (status `stopped`), and
then let the killed pipeline's promise reject — the `.catch` handler,
guarded only by `if (currentAnalysis)`, overwrites the terminal
`stopped` status with `error`, with no `clear()` in the trace. -/
theorem stopped_overwritten_counterexample :
    (execTrace [Event.startReq goodParams, Event.stopReq]).statusNow
      = some Status.stopped ∧
    (execTrace [Event.startReq goodParams, Event.stopReq,
        Event.settleReject 0 "Docker container exited with code null: "]).statusNow
      = some Status.error ∧
    Status.error ≠ Status.stopped := by
  decide

/-- Amended C2: `completed` and `error` do persist until an explicit
clear or a superseding start, provided no started pipeline promise is
still pending (each settled promise is spent); `stopped` however is not
persistent — while the stopped run's promise is still pending, its
settlement overwrites `stopped` with `completed` or `error`, because
the `.then`/`.catch` handlers null-check the slot but never check its
status. -/
theorem terminal_persistence_amended :
    (∀ (s : ServerState) (a : Analysis) (e : Event),
      s.currentAnalysis = some a →
      a.status = Status.completed ∨ a.status = Status.error →
      s.pending = [] →
      (∀ p, e ≠ Event.startReq p) →
      e ≠ Event.clearReq →
      ((step s e).2).statusNow = some a.status) ∧
    (∀ (s : ServerState) (a : Analysis) (r : Nat) (msg : String),
      s.currentAnalysis = some a →
      a.status = Status.stopped →
      s.pending.contains r = true →
      ((step s (Event.settleReject r msg)).2).statusNow = some Status.error ∧
      ((step s (Event.settleResolve r)).2).statusNow
        = some Status.completed) := by
  constructor
  · intro s a e hca hterm hpend hnostart hnoclear
    cases e with
    | startReq p => exact absurd rfl (hnostart p)
    | clearReq => exact absurd rfl hnoclear
    | stopReq =>
      rcases hterm with h | h <;>
        simp [step, hca, h, ServerState.statusNow]
    | subscribeReq =>
      simp [step, hca, ServerState.statusNow]
    | stepExit run =>
      simp [step, hpend, hca, ServerState.statusNow]
    | settleResolve run =>
      simp [step, hpend, hca, ServerState.statusNow]
    | settleReject run msg =>
      simp [step, hpend, hca, ServerState.statusNow]
  · intro s a r msg hca hst hr
    have hr2 : r ∈ s.pending := by simpa using hr
    constructor <;> simp [step, hr2, hca, ServerState.statusNow]

/-- Witness for amended C2: a completed run with its promise spent keeps
status `completed` across a stop request, and a freshly stopped run's
pending promise rejection flips the status to `error`. -/
theorem terminal_persistence_amended_witness :
    ((step (execTrace [Event.startReq goodParams, Event.settleResolve 0])
        Event.stopReq).2).statusNow = some Status.completed ∧
    ((step (execTrace [Event.startReq goodParams, Event.stopReq])
        (Event.settleReject 0 "m")).2).statusNow = some Status.error := by
  refine ⟨?_, ?_⟩
  · have h := terminal_persistence_amended.1
      (execTrace [Event.startReq goodParams, Event.settleResolve 0])
      ⟨Status.completed, true, none, 0⟩ Event.stopReq
      (by decide) (Or.inl rfl) (by decide)
      (fun p hp => Event.noConfusion hp) (by decide)
    simpa using h
  · exact (terminal_persistence_amended.2
      (execTrace [Event.startReq goodParams, Event.stopReq])
      ⟨Status.stopped, false, some "Analysis stopped by user", 0⟩ 0 "m"
      (by decide) rfl (by decide)).1

/-- Preservation lemma: no transition of the router ever stores a
non-null value in `currentPythonProcess` — the only assignments in the
source are `processCallback(null)` on container exit (pythonExecutor.js
line 405) and the nulling in the `.then`/`.catch` handlers (analysis.js
lines 74 and 93); the handle `runContainer` would need to hand over is
returned from inside the `new Promise` executor and discarded (part_000
line 160). -/
theorem step_keeps_process_none (s : ServerState) (e : Event)
    (h : s.currentPythonProcess = none) :
    ((step s e).2).currentPythonProcess = none := by
  cases e <;> simp only [step] <;> (repeat' split) <;> simp_all

/-- Trace version of `step_keeps_process_none`. -/
theorem trace_keeps_process_none :
    ∀ (tr : List Event) (s : ServerState),
      s.currentPythonProcess = none →
      (tr.foldl (fun s e => (step s e).2) s).currentPythonProcess = none := by
  intro tr
  induction tr with
  | nil => intro s h; simpa using h
  | cons e rest ih =>
    intro s h
    exact ih _ (step_keeps_process_none s e h)

/-- Claim C3 evaluated on the code: in every reachable server state the
process handle `currentPythonProcess` is `none` — in particular right
after an accepted start, while the status is `running`, there is no
handle for `stop()` to signal.  The claimed invariant (handle set iff
`running`) fails in the running state. -/
theorem processHandle_never_set :
    (∀ tr : List Event, (execTrace tr).currentPythonProcess = none) ∧
    (execTrace [Event.startReq goodParams]).statusNow = some Status.running ∧
    (execTrace [Event.startReq goodParams]).currentPythonProcess = none := by
  refine ⟨fun tr => trace_keeps_process_none tr initialServer rfl, by decide, ?_⟩
  exact trace_keeps_process_none [Event.startReq goodParams] initialServer rfl

/-- Claim C9: `DELETE /clear` succeeds in every state — any status
including `running` — closing the slot's SSE connections and emptying
the slot, while sending no termination signal and leaving every pending
pipeline promise pending; and when such an orphaned promise later
settles, the null-guarded `.then`/`.catch` handlers leave the cleared
slot empty. -/
theorem clear_accepted_any_status :
    ∀ s : ServerState,
      (step s Event.clearReq).1 = Response.cleared ∧
      ((step s Event.clearReq).2).currentAnalysis = none ∧
      ((step s Event.clearReq).2).signalsSent = s.signalsSent ∧
      ((step s Event.clearReq).2).pending = s.pending ∧
      ((step s Event.clearReq).2).connectionsClosed
        = s.connectionsClosed
          + (match s.currentAnalysis with
             | some a => a.sseCount
             | none => 0) ∧
      (∀ (r : Nat) (msg : String),
        ((step (step s Event.clearReq).2 (Event.settleResolve r)).2).currentAnalysis
          = none ∧
        ((step (step s Event.clearReq).2 (Event.settleReject r msg)).2).currentAnalysis
          = none) := by
  intro s
  cases h : s.currentAnalysis with
  | none =>
    refine ⟨by simp [step, h], by simp [step, h], by simp [step, h],
      by simp [step, h], by simp [step, h], ?_⟩
    intro r msg
    constructor <;> simp [step, h] <;> split <;> simp [h]
  | some a =>
    refine ⟨by simp [step, h], by simp [step, h], by simp [step, h],
      by simp [step, h], by simp [step, h], ?_⟩
    intro r msg
    constructor <;> simp [step, h] <;> split <;> simp

/-- A container behavior that fails the third stage (index 2) with
stderr `"boom"` and lets every other stage succeed. -/
def failAtStage3 : Nat → RunOutcome :=
  fun i => if i = 2 then RunOutcome.rejected "boom"
           else RunOutcome.resolved true "" (some 0)

/-- Counterexample to C4: if stage 3 of the 11-stage table exits
non-zero, the recorded `stepResults` collection has exactly the two
*preceding* stages, both marked `"completed"` — not three entries with
the third marked failed.  (`_executeStep` throws on a rejection before
`stepResults[step.name]` is assigned, and it has no failed variant at
all.)  Stages 4-11 are indeed never invoked. -/
theorem abort_on_failure_counterexample :
    (runStages failAtStage3 standardPipeline 0).recorded
      = [⟨"trim and rename", "Step1/rename_trim.py", "completed"⟩,
         ⟨"pear", "Step2/joinPear.py", "completed"⟩] ∧
    ¬ (runStages failAtStage3 standardPipeline 0).recorded.length = 3 ∧
    (runStages failAtStage3 standardPipeline 0).invoked
      = ["trim and rename", "pear", "length filter"] ∧
    (runStages failAtStage3 standardPipeline 0).errorMsg = some "boom" := by
  decide

/-- Shape of the stage driving loop on a behavior whose first rejection
is at position `k` of the remaining steps. -/
theorem runStages_fail_spec (behavior : Nat → RunOutcome) :
    ∀ (ps : List PipelineStep) (i k : Nat) (msg : String),
      k < ps.length →
      (∀ j, j < k → (behavior (i + j)).isRejected = false) →
      behavior (i + k) = RunOutcome.rejected msg →
      runStages behavior ps i =
        ⟨(ps.take k).map completedStepResult,
          (ps.take (k + 1)).map PipelineStep.name, some msg⟩ := by
  intro ps
  induction ps with
  | nil =>
    intro i k msg hk
    exact absurd hk (by simp)
  | cons st rest ih =>
    intro i k msg hk hres hrej
    cases k with
    | zero =>
      have h0 : behavior i = RunOutcome.rejected msg := by simpa using hrej
      simp [runStages, h0]
    | succ k2 =>
      have h0 : (behavior i).isRejected = false := by
        simpa using hres 0 (Nat.succ_pos k2)
      cases hb : behavior i with
      | rejected m =>
        rw [hb] at h0
        simp [RunOutcome.isRejected] at h0
      | resolved ok out code =>
        have hres2 : ∀ j, j < k2 → (behavior (i + 1 + j)).isRejected = false := by
          intro j hj
          have h := hres (j + 1) (Nat.succ_lt_succ hj)
          have he : i + (j + 1) = i + 1 + j := by omega
          rwa [he] at h
        have hrej2 : behavior (i + 1 + k2) = RunOutcome.rejected msg := by
          have he : i + (k2 + 1) = i + 1 + k2 := by omega
          rwa [he] at hrej
        have hk2 : k2 < rest.length := by
          simpa using Nat.lt_of_succ_lt_succ hk
        have ihr := ih (i + 1) k2 msg hk2 hres2 hrej2
        simp [runStages, hb, ihr]

/-- Amended C4: a run whose stage `k+1` (0-based `k`) is the first to
fail records exactly the `k` preceding stages, each marked
`"completed"`; the failing stage gets no entry; only stages `1..k+1`
are ever invoked; and the pipeline promise rejects with the failure
message, which the route's `.catch` turns into final status `error`. -/
theorem abort_on_failure_amended :
    (∀ (behavior : Nat → RunOutcome) (k : Nat) (msg : String),
      k < standardPipeline.length →
      (∀ j, j < k → (behavior j).isRejected = false) →
      behavior k = RunOutcome.rejected msg →
      runStages behavior standardPipeline 0 =
        ⟨(standardPipeline.take k).map completedStepResult,
          (standardPipeline.take (k + 1)).map PipelineStep.name, some msg⟩ ∧
      (∀ (fs : FileSys) (emsg : String),
        (executePipelineModel fs true emsg behavior).outcome = some msg)) ∧
    (∀ (s : ServerState) (a : Analysis) (r : Nat) (msg : String),
      s.currentAnalysis = some a → a.status = Status.running →
      s.pending.contains r = true →
      ((step s (Event.settleReject r msg)).2).statusNow
        = some Status.error) := by
  constructor
  · intro behavior k msg hk hres hrej
    have hres0 : ∀ j, j < k → (behavior (0 + j)).isRejected = false := by
      intro j hj
      simpa using hres j hj
    have hrej0 : behavior (0 + k) = RunOutcome.rejected msg := by
      simpa using hrej
    have hmain := runStages_fail_spec behavior standardPipeline 0 k msg hk
      hres0 hrej0
    refine ⟨hmain, fun fs emsg => ?_⟩
    simp [executePipelineModel, hmain]
  · intro s a r msg hca hst hr
    have hr2 : r ∈ s.pending := by simpa using hr
    simp [step, hr2, hca, ServerState.statusNow]

/-- Witness for amended C4: the stage-3 failure records the two earlier
stages, and a rejection settling against a running analysis sets status
`error`. -/
theorem abort_on_failure_amended_witness :
    runStages failAtStage3 standardPipeline 0 =
      ⟨(standardPipeline.take 2).map completedStepResult,
        (standardPipeline.take 3).map PipelineStep.name, some "boom"⟩ ∧
    ((step (execTrace [Event.startReq goodParams])
        (Event.settleReject 0 "boom")).2).statusNow = some Status.error :=
  ⟨(abort_on_failure_amended.1 failAtStage3 2 "boom" (by decide)
      (by decide) (by decide)).1,
   abort_on_failure_amended.2 (execTrace [Event.startReq goodParams])
     ⟨Status.running, false, none, 0⟩ 0 "boom" (by decide) rfl (by decide)⟩

/-- Counterexample to C6: the stage table requires the NCBI reference
file (stage `"blast"`), yet a start body that supplies only the three
file fields — with reference file, keyword, identity, copy number all
absent — passes validation and is accepted: `executePipeline` is called
(one executor call; its stages then spawn processes), instead of a
synchronous validation error with zero processes spawned. -/
theorem validation_coverage_counterexample :
    (standardPipeline.any fun st => st.requiredFiles.contains "ncbiReference")
      = true ∧
    goodParams.ncbiReferenceFile = none ∧
    goodParams.keyword = none ∧
    goodParams.identity = none ∧
    goodParams.copyNumber = none ∧
    (step initialServer (Event.startReq goodParams)).1 = Response.started ∧
    ((step initialServer (Event.startReq goodParams)).2).executorCalls = 1 := by
  decide

/-- Amended C6: `start` validates only the presence of the three file
fields `r1File`, `r2File`, `barcodeFile` (as nonempty strings; Joi also
rejects any further key as unknown).  When any of the three is missing
the start fails synchronously with the validation response and the
state — in particular the executor-call count, hence the set of spawned
processes — is untouched.  The remaining stage inputs (minLength, NCBI
reference, keyword, identity, copy number) are never validated. -/
theorem validation_only_three_files_amended :
    (∀ (s : ServerState) (p : PipelineParams),
      s.isRunning = false → pipelineSchemaValidate p = false →
      step s (Event.startReq p) = (Response.validationFailed, s)) ∧
    (∀ p : PipelineParams,
      p.r1File = none ∨ p.r2File = none ∨ p.barcodeFile = none →
      pipelineSchemaValidate p = false) := by
  constructor
  · intro s p hrun hval
    simp [step, hrun, hval]
  · intro p h
    rcases h with h | h | h <;>
      simp [pipelineSchemaValidate, joiStringRequired, h]

/-- Witness for amended C6: a body missing `r1File` is rejected by the
schema, and the start request leaves the initial state unchanged. -/
theorem validation_only_three_files_amended_witness :
    pipelineSchemaValidate missingR1Params = false ∧
    step initialServer (Event.startReq missingR1Params)
      = (Response.validationFailed, initialServer) :=
  ⟨validation_only_three_files_amended.2 missingR1Params (Or.inl rfl),
   validation_only_three_files_amended.1 initialServer missingR1Params
     (by decide) (by decide)⟩

/-- Spawn events are the only events the stage loop emits. -/
theorem stageSpawnEvents_only_spawns (behavior : Nat → RunOutcome) :
    ∀ (ps : List PipelineStep) (i : Nat) (e : ExecEvent),
      e ∈ stageSpawnEvents behavior ps i → e.isSpawn = true := by
  intro ps
  induction ps with
  | nil => intro i e h; simp [stageSpawnEvents] at h
  | cons st rest ih =>
    intro i e h
    unfold stageSpawnEvents at h
    cases hb : behavior i with
    | resolved ok out code =>
      rw [hb] at h
      rcases List.mem_cons.mp h with h | h
      · subst h; rfl
      · exact ih (i + 1) e h
    | rejected m =>
      rw [hb] at h
      rcases List.mem_singleton.mp h with rfl
      rfl

/-- Claim C10: every run that proceeds past the environment check clears
the output area before its stage loop: at entry of the loop the
filesystem is exactly `clearOutputDirectories` of the previous state, in
which each of the thirteen fixed directories exists and is empty; in
the emitted event order the directory clearing precedes every container
spawn; and a run whose environment check fails spawns nothing at all. -/
theorem outputs_cleared_before_stages :
    ∀ (fs : FileSys) (emsg : String) (behavior : Nat → RunOutcome),
      (executePipelineModel fs true emsg behavior).fsBeforeStages
        = some (clearOutputDirectories fs) ∧
      (∀ d : String, outputDirNames.contains d = true →
        (clearOutputDirectories fs).dirs d = some []) ∧
      (∃ tail : List ExecEvent,
        (executePipelineModel fs true emsg behavior).events
          = [ExecEvent.envCheck true, ExecEvent.clearDirs,
             ExecEvent.writeQualityConfig] ++ tail ∧
        ∀ e ∈ tail, e.isSpawn = true) ∧
      (executePipelineModel fs false emsg behavior).events
        = [ExecEvent.envCheck false] ∧
      outputDirNames.length = 13 := by
  intro fs emsg behavior
  refine ⟨rfl, ?_, ?_, rfl, rfl⟩
  · intro d hd
    have hd2 : d ∈ outputDirNames := by simpa using hd
    simp [clearOutputDirectories, hd2]
  · exact ⟨stageSpawnEvents behavior standardPipeline 0, rfl,
      fun e he => stageSpawnEvents_only_spawns behavior standardPipeline 0 e he⟩

/-- Witness for C10: on a filesystem whose directories all hold stale
files, the cleared state has (for instance) an existing, empty `blast`
directory. -/
theorem outputs_cleared_before_stages_witness :
    (clearOutputDirectories ⟨fun _ => some ["old"], fun _ _ => 0⟩).dirs "blast"
      = some [] :=
  (outputs_cleared_before_stages ⟨fun _ => some ["old"], fun _ _ => 0⟩ ""
    (fun _ => RunOutcome.resolved true "" (some 0))).2.1 "blast" (by decide)

end MEVP
